import Mathlib

/-
Verification of the yotar library (src/yotar.py): a shallow embedding of its
five components (shell, cd, env, path, quiet) and of the module-level name
resolution, together with theorems settling the specified properties.

Modelling conventions:
  * The process environment is an association list of string pairs with
    distinct keys; os.environ indexing, assignment and deletion become
    lookupEnv, setEnv and delEnv.  CPython's os._Environ.__iter__ snapshots
    the key list before iterating, so the restore loop of env() is a fold
    over the keys present when the loop starts.
  * Python exceptions become an explicit PyError value threaded through
    Except or an Option PyError component of the result.
  * A context manager produced by @contextmanager without try/finally does
    NOT run the code after yield when the enclosed block raises: the
    exception is thrown into the generator at the yield point and
    propagates.  The embeddings of cd, env and quiet reflect this by
    returning the state the block left behind, untouched, on the error path.
  * Blocks executed inside a scope are modelled as functions from the
    relevant state to (new state, optional raised error), or simply as
    state transformers when the claim only concerns non-raising blocks.
-/

/-- Errors the embedded code can raise, mirroring the Python exceptions:
KeyError, UnboundLocalError, NameError, subprocess.CalledProcessError
(the spec calls it CommandFailed), the OSError from os.getlogin (the spec
calls it EnvironmentQueryError), and a generic exception raised by an
enclosed block. -/
inductive PyError where
  | keyError : String → PyError
  | unboundLocal : String → PyError
  | nameError : String → PyError
  | commandFailed : String → Int → PyError
  | environmentQuery : PyError
  | blockRaised : String → PyError
deriving DecidableEq, Repr

/-- The process environment: an association list from variable names to
values, with the first binding of a key the authoritative one. -/
abbrev Env := List (String × String)

/-- Reading a variable: the value of the first binding of the key, if any
(os.environ.get / the `in` test combined with indexing). -/
def lookupEnv : Env → String → Option String
  | [], _ => none
  | (a, b) :: t, k => if a = k then some b else lookupEnv t k

/-- Assignment os.environ[k] = v: replace the existing binding in place, or
append a new one. -/
def setEnv : Env → String → String → Env
  | [], k, v => [(k, v)]
  | (a, b) :: t, k, v => if a = k then (k, v) :: t else (a, b) :: setEnv t k v

/-- Deletion del os.environ[k]: drop the binding of the key. -/
def delEnv : Env → String → Env
  | [], _ => []
  | (a, b) :: t, k => if a = k then delEnv t k else (a, b) :: delEnv t k

/-- The keys of the environment in order (list(os.environ) as snapshotted by
os._Environ.__iter__ at the start of a for loop). -/
def keysOf (e : Env) : List String :=
  e.map Prod.fst

/-- Entry loop of env() (src/yotar.py lines 51-52): for each supplied
key/value pair, os.environ[key] = value. -/
def applyKwargs (e kwargs : Env) : Env :=
  kwargs.foldl (fun acc kv => setEnv acc kv.1 kv.2) e

/-- One iteration of the exit loop of env() (src/yotar.py lines 56-60): for
a key of the environment, if the key is among the supplied kwargs and its
current value equals the supplied value, delete it; otherwise set it to its
value in the pre-entry snapshot, raising KeyError when the snapshot has no
such key.  Reading a key that is no longer present also raises KeyError
(it cannot happen in a run of the whole loop, whose keys are distinct). -/
def envRestoreStep (original kwargs cur : Env) (k : String) : Except PyError Env :=
  match lookupEnv cur k with
  | none => Except.error (PyError.keyError k)
  | some v =>
    if lookupEnv kwargs k = some v then
      Except.ok (delEnv cur k)
    else
      match lookupEnv original k with
      | some ov => Except.ok (setEnv cur k ov)
      | none => Except.error (PyError.keyError k)

/-- The whole exit loop of env(): iterate envRestoreStep over the keys the
environment holds when the loop starts. -/
def envRestore (original kwargs cur : Env) : Except PyError Env :=
  List.foldlM (envRestoreStep original kwargs) cur (keysOf cur)

/-- The env() context manager (src/yotar.py lines 46-60) around a
non-raising block: snapshot the environment (copy.deepcopy(os.environ)),
apply the supplied pairs, run the block on the live environment, then run
the restore loop.  The result is the environment after exit, or the
KeyError the restore loop raised. -/
def envScope (pre kwargs : Env) (block : Env → Env) : Except PyError Env :=
  envRestore pre kwargs (block (applyKwargs pre kwargs))

/-- The cd context manager (src/yotar.py lines 37-43): record the current
working directory, change to the target, run the block (which may itself
change directory and may raise), and, only when the block returned
normally, change back to the recorded directory.  The yield is not wrapped
in try/finally, so when the block raises, the generator propagates the
exception and the final os.chdir(cwd) never runs: the working directory
stays wherever the block left it.  The entry os.chdir is modelled as
succeeding (the claims under study concern the exit path).  The block maps
the directory it starts in to the directory it ends in plus an optional
raised error; the result is the working directory after the scope and the
propagated error, if any. -/
def cdScope (cwd target : String) (block : String → String × Option PyError) :
    String × Option PyError :=
  let r := block target
  match r.2 with
  | none => (cwd, none)
  | some e => (r.1, some e)

/-- The result of subprocess.run as shell() returns it: the command text,
the exit code, and the captured output and error text when capture was
requested (sp.PIPE) or none when the streams were inherited. -/
structure CompletedProcess where
  args : String
  returncode : Int
  stdout : Option String
  stderr : Option String
deriving DecidableEq, Repr

/-- The shell function (src/yotar.py lines 8-34).  The ambient world enters
as parameters: login is the result of os.getlogin (none when the login
identity cannot be determined, in which case os.getlogin raises OSError),
and childExit, childOut, childErr describe the child process the command
text would produce.  The first component of the result is the list of lines
printed to standard output; the second is the returned CompletedProcess or
the raised error.  os.getlogin runs before the print, so nothing is printed
on that failure; the attribution line prints before sp.run, so it is
printed even when sp.run raises CalledProcessError, while the trailing
blank line is not. -/
def shell (login : Option String) (childExit : Int) (childOut childErr : String)
    (command : String) (check capture : Bool) :
    List String × Except PyError CompletedProcess :=
  match login with
  | none => ([], Except.error PyError.environmentQuery)
  | some user =>
    let logLine := user ++ ": " ++ command
    if check = true ∧ childExit ≠ 0 then
      ([logLine], Except.error (PyError.commandFailed command childExit))
    else
      ([logLine, ""],
       Except.ok ⟨command, childExit,
         if capture then some childOut else none,
         if capture then some childErr else none⟩)

/-- A value of the (undefined) Pathy annotation as the body of path()
treats it: either a plain string, or a path-like object whose fspath method
yields a string. -/
inductive PathyV where
  | str : String → PathyV
  | pathLike : String → PathyV
deriving DecidableEq, Repr

/-- The for loop of path() (src/yotar.py lines 76-80).  The local variable
paths_str_list is declared with a bare annotation on line 74, which binds
nothing, so every item assignment to it raises UnboundLocalError: on a
non-string entry via the fspath branch (line 78), and on a string entry
when expand_user is set (line 80).  A string entry with expand_user unset
falls through both branches and assigns nothing. -/
def pathLoop (expandUser : Bool) : List PathyV → Except PyError Unit
  | [] => Except.ok ()
  | PathyV.pathLike _ :: _ => Except.error (PyError.unboundLocal "paths_str_list")
  | PathyV.str _ :: rest =>
    if expandUser then Except.error (PyError.unboundLocal "paths_str_list")
    else pathLoop expandUser rest

/-- The path context manager (src/yotar.py lines 63-87): run the loop over
the supplied entries; then read os.environ[PATH] (line 82, KeyError when
absent); then line 84 reads paths_str_list in both arms of its conditional
expression, and since the variable is still unbound — the loop either
raised or assigned nothing — it raises UnboundLocalError.  Lines 86-87,
the only place the environment is modified (with env(PATH=...)) and the
only place the scope body would run, are unreachable, so the result pairs
the untouched environment with the raised error. -/
def pathScope (environ : Env) (paths : List PathyV) (prepend expandUser : Bool) :
    Env × Option PyError :=
  match pathLoop expandUser paths with
  | Except.error e => (environ, some e)
  | Except.ok _ =>
    match lookupEnv environ "PATH" with
    | none => (environ, some (PyError.keyError "PATH"))
    | some _ =>
      let _ := prepend
      (environ, some (PyError.unboundLocal "paths_str_list"))

/-- The file descriptor table of the process: an association list from
descriptor numbers to identifiers of open file descriptions.  dup and dup2
make two numbers share one description; open creates a fresh description. -/
abbrev FdTable := List (Nat × Nat)

/-- The open file description a descriptor number refers to, if open. -/
def fdLookup : FdTable → Nat → Option Nat
  | [], _ => none
  | (a, b) :: t, fd => if a = fd then some b else fdLookup t fd

/-- Point a descriptor number at a description, replacing in place or
appending. -/
def fdSet : FdTable → Nat → Nat → FdTable
  | [], fd, d => [(fd, d)]
  | (a, b) :: t, fd, d => if a = fd then (fd, d) :: t else (a, b) :: fdSet t fd d

/-- os.close(fd): remove the descriptor number from the table. -/
def fdClose : FdTable → Nat → FdTable
  | [], _ => []
  | (a, b) :: t, fd => if a = fd then fdClose t fd else (a, b) :: fdClose t fd

/-- POSIX allocates the lowest unused descriptor number for os.open and
os.dup: the first number not bound in the table. -/
def lowestFreeFd (t : FdTable) : Nat :=
  let bound := t.map Prod.fst
  (((List.range (bound.foldr Nat.max 0 + 2)).filter (fun n => ¬ n ∈ bound)).headD 0)

/-- The descriptor state: the table plus a supply of fresh description
identifiers for newly opened files. -/
structure FdState where
  table : FdTable
  nextDesc : Nat
deriving DecidableEq, Repr

/-- os.open(os.devnull, os.O_RDWR): a fresh null-device description on the
lowest free descriptor number. -/
def openNull (s : FdState) : Nat × FdState :=
  let fd := lowestFreeFd s.table
  (fd, ⟨fdSet s.table fd s.nextDesc, s.nextDesc + 1⟩)

/-- os.dup(fd): the lowest free descriptor number pointing at the same
description as fd.  The claims exercise it only on open descriptors; a
closed one yields descriptor 0 sharing description 0, standing for the
OSError path, which no theorem relies on. -/
def dupFd (s : FdState) (fd : Nat) : Nat × FdState :=
  match fdLookup s.table fd with
  | some d =>
    let nfd := lowestFreeFd s.table
    (nfd, ⟨fdSet s.table nfd d, s.nextDesc⟩)
  | none => (0, ⟨fdSet s.table 0 0, s.nextDesc⟩)

/-- os.dup2(src, dst): make dst refer to the description of src. -/
def dup2Fd (s : FdState) (src dst : Nat) : FdState :=
  match fdLookup s.table src with
  | some d => ⟨fdSet s.table dst d, s.nextDesc⟩
  | none => s

/-- The quiet() context manager (src/yotar.py lines 90-121): open two null
descriptors, duplicate descriptors 1 and 2 for safekeeping, point 1 and 2
at the null descriptors, run the block; when the block returns normally,
point 1 and 2 back at the saved duplicates and close the two null
descriptors and the two duplicates, in that order.  The yield is not
wrapped in try/finally, so when the block raises, none of the exit code
runs: descriptors 1 and 2 keep referring to the null device and all four
auxiliary descriptors stay open, and the error propagates. -/
def quietScope (s : FdState) (block : FdState → FdState × Option PyError) :
    FdState × Option PyError :=
  let r1 := openNull s
  let r2 := openNull r1.2
  let rd1 := dupFd r2.2 1
  let rd2 := dupFd rd1.2 2
  let entered := dup2Fd (dup2Fd rd2.2 r1.1 1) r2.1 2
  let rb := block entered
  match rb.2 with
  | some e => (rb.1, some e)
  | none =>
    let restored := dup2Fd (dup2Fd rb.1 rd1.1 1) rd2.1 2
    let closed := fdClose (fdClose (fdClose (fdClose restored.table r1.1) r2.1) rd1.1) rd2.1
    (⟨closed, restored.nextDesc⟩, none)

/-- Names the Python builtins provide that the module top level looks up. -/
def pyBuiltins : List String :=
  ["str", "bool", "print", "list", "enumerate", "isinstance"]

/-- The module-level import bindings of src/yotar.py lines 1-5, in order:
contextmanager, sp, T, copy, os. -/
def moduleImports : List String :=
  ["contextmanager", "sp", "T", "copy", "os"]

/-- The function definitions of src/yotar.py in source order, each with the
global names its def statement evaluates: decorator expressions, parameter
annotation expressions and the return annotation (Python evaluates these
when the def executes; names inside function bodies and bare local
annotations are not looked up at definition time).  shell refers to str and
sp (line 8), cd to contextmanager and Pathy (lines 37-38), env to
contextmanager, T and os (lines 46-47), path to contextmanager, Pathy and T
(lines 63-64), quiet to contextmanager (lines 90-91). -/
def moduleDefs : List (String × List String) :=
  [("shell", ["str", "sp"]),
   ("cd", ["contextmanager", "Pathy"]),
   ("env", ["contextmanager", "T", "os"]),
   ("path", ["contextmanager", "Pathy", "T"]),
   ("quiet", ["contextmanager"])]

/-- Executing the module top level: process each def in order, failing with
NameError at the first referenced name that is neither already bound at
module level nor a builtin, and otherwise binding the function name.  The
result is the final list of module bindings, or the NameError. -/
def evalModule : List String → List (String × List String) → Except PyError (List String)
  | bound, [] => Except.ok bound
  | bound, (n, refs) :: rest =>
    match refs.find? (fun r => ¬ (r ∈ bound ∨ r ∈ pyBuiltins)) with
    | some bad => Except.error (PyError.nameError bad)
    | none => evalModule (bound ++ [n]) rest

theorem lookupEnv_setEnv_self (e : Env) (k v : String) :
    lookupEnv (setEnv e k v) k = some v := by
  induction e with
  | nil => simp [setEnv, lookupEnv]
  | cons p t ih =>
    obtain ⟨a, b⟩ := p
    by_cases ha : a = k
    · simp [setEnv, ha, lookupEnv]
    · simp [setEnv, ha, lookupEnv, ih]

theorem lookupEnv_setEnv_ne (e : Env) {k q : String} (h : q ≠ k) (v : String) :
    lookupEnv (setEnv e k v) q = lookupEnv e q := by
  induction e with
  | nil => simp [setEnv, lookupEnv, Ne.symm h]
  | cons p t ih =>
    obtain ⟨a, b⟩ := p
    by_cases ha : a = k
    · subst ha
      simp [setEnv, lookupEnv, Ne.symm h]
    · by_cases haq : a = q <;> simp [setEnv, ha, lookupEnv, haq, ih, h]

theorem lookupEnv_delEnv_ne (e : Env) {k q : String} (h : q ≠ k) :
    lookupEnv (delEnv e k) q = lookupEnv e q := by
  induction e with
  | nil => rfl
  | cons p t ih =>
    obtain ⟨a, b⟩ := p
    by_cases ha : a = k
    · subst ha
      simp [delEnv, lookupEnv, Ne.symm h, ih]
    · by_cases haq : a = q <;> simp [delEnv, ha, lookupEnv, haq, ih, h]

theorem lookupEnv_isSome_mem_keys (e : Env) (k : String)
    (h : (lookupEnv e k).isSome) : k ∈ keysOf e := by
  induction e with
  | nil => simp [lookupEnv] at h
  | cons p t ih =>
    obtain ⟨a, b⟩ := p
    by_cases ha : a = k
    · simp [keysOf, ha]
    · simp [lookupEnv, ha] at h
      simpa [keysOf] using Or.inr (by simpa [keysOf] using ih h)

theorem except_bind_ok {ε α β : Type} {x : Except ε α} {g : α → Except ε β} {r : β}
    (h : x >>= g = Except.ok r) : ∃ a, x = Except.ok a ∧ g a = Except.ok r := by
  cases x with
  | error e => simp [Bind.bind, Except.bind] at h
  | ok a => exact ⟨a, rfl, by simpa [Bind.bind, Except.bind] using h⟩

theorem envRestoreStep_ok_other {original kwargs cur cur2 : Env} {k q : String}
    (hne : q ≠ k) (h : envRestoreStep original kwargs cur k = Except.ok cur2) :
    lookupEnv cur2 q = lookupEnv cur q := by
  unfold envRestoreStep at h
  split at h
  · simp at h
  · split at h
    · injection h with h2
      subst h2
      exact lookupEnv_delEnv_ne cur hne
    · split at h
      · rename_i ov ho
        injection h with h2
        subst h2
        exact lookupEnv_setEnv_ne cur hne ov
      · simp at h

theorem envRestore_fold_preserves {original kwargs : Env} {k : String} :
    ∀ (ks : List String) (cur res : Env), ¬ k ∈ ks →
      List.foldlM (envRestoreStep original kwargs) cur ks = Except.ok res →
      lookupEnv res k = lookupEnv cur k := by
  intro ks
  induction ks with
  | nil =>
    intro cur res _ h
    simp [List.foldlM, pure, Except.pure] at h
    rw [h]
  | cons a l ih =>
    intro cur res hmem h
    rw [List.foldlM_cons] at h
    obtain ⟨mid, h1, h2⟩ := except_bind_ok h
    have hne : k ≠ a := fun hh => hmem (hh ▸ List.mem_cons_self a l)
    have hstep := envRestoreStep_ok_other hne h1
    rw [ih mid res (fun hh => hmem (List.mem_cons_of_mem a hh)) h2, hstep]

theorem envRestore_aux {original kwargs : Env} {k ov : String}
    (hkw : lookupEnv kwargs k = none) (ho : lookupEnv original k = some ov) :
    ∀ (ks : List String) (cur res : Env), ks.Nodup → k ∈ ks →
      (lookupEnv cur k).isSome →
      List.foldlM (envRestoreStep original kwargs) cur ks = Except.ok res →
      lookupEnv res k = some ov := by
  intro ks
  induction ks with
  | nil =>
    intro cur res _ hmem _ _
    exact absurd hmem (List.not_mem_nil k)
  | cons a l ih =>
    intro cur res hnd hmem hsome h
    rw [List.foldlM_cons] at h
    obtain ⟨mid, h1, h2⟩ := except_bind_ok h
    by_cases hk : k = a
    · subst hk
      obtain ⟨v, hv⟩ := Option.isSome_iff_exists.mp hsome
      have hstep : envRestoreStep original kwargs cur k = Except.ok (setEnv cur k ov) := by
        simp [envRestoreStep, hv, hkw, ho]
      rw [hstep] at h1
      injection h1 with hmid
      subst hmid
      have hnotin : ¬ k ∈ l := (List.nodup_cons.mp hnd).1
      rw [envRestore_fold_preserves l (setEnv cur k ov) res hnotin h2]
      exact lookupEnv_setEnv_self cur k ov
    · have hmem2 : k ∈ l := by
        cases List.mem_cons.mp hmem with
        | inl hh => exact absurd hh hk
        | inr hh => exact hh
      have hpre := envRestoreStep_ok_other hk h1
      exact ih mid res (List.nodup_cons.mp hnd).2 hmem2 (by rw [hpre]; exact hsome) h2

/-- C1: the claim states that the working directory after a cd scope exits
equals the one before entry even when the enclosed block raises, with the
restoration running on the failure exit path.  The code has no try/finally
around the yield (src/yotar.py lines 37-43), so on the failure path the
restoring os.chdir never runs: starting at /home, a cd scope to /tmp whose
block raises leaves the working directory at /tmp, not /home, while the
error propagates. -/
theorem c1_cd_no_restore_on_failure :
    cdScope "/home" "/tmp" (fun t => (t, some (PyError.blockRaised "boom")))
        = ("/tmp", some (PyError.blockRaised "boom"))
      ∧ ("/tmp" : String) ≠ "/home" := by
  exact ⟨rfl, by decide⟩

/-- C2: the claim states that after an env scope exits, each supplied key
is restored to its pre-entry value when it had one.  With pre-entry
environment FOO=old and scope argument FOO=new around a block that changes
nothing, the exit loop (src/yotar.py lines 56-60) finds the current value
equal to the supplied one and deletes the key, so FOO ends absent instead
of restored to old. -/
theorem c2_env_preentry_value_lost :
    envScope [("FOO", "old")] [("FOO", "new")] (fun e => e) = Except.ok []
      ∧ lookupEnv ([] : Env) "FOO" = none
      ∧ (none : Option String) ≠ some "old" := by
  exact ⟨rfl, rfl, by decide⟩

/-- C3 counterexample: the claim states that the exit loop iterates only
the scope's own supplied keys and leaves every other key untouched.  With
no supplied keys at all and a block that changes the pre-existing key X
from 1 to 2, the loop still visits X — the key the block left with value 2
comes out with value 1 — so a key outside K was touched. -/
theorem c3_env_frame_counterexample :
    envScope [("X", "1")] [] (fun e => setEnv e "X" "2") = Except.ok [("X", "1")]
      ∧ lookupEnv (setEnv (applyKwargs [("X", "1")] []) "X" "2") "X" = some "2"
      ∧ (some "1" : Option String) ≠ some "2" := by
  exact ⟨rfl, rfl, by decide⟩

/-- C3 (amended): the exit loop of env iterates every key present in the
environment when it starts, not only the supplied ones; a key outside the
supplied set that has a pre-entry snapshot value is reset to that snapshot
value by the loop rather than left untouched. -/
theorem c3_env_restore_resets_outside_keys
    (original kwargs cur res : Env) (k ov : String)
    (hnd : (keysOf cur).Nodup)
    (hsome : (lookupEnv cur k).isSome)
    (hkw : lookupEnv kwargs k = none)
    (ho : lookupEnv original k = some ov)
    (hres : envRestore original kwargs cur = Except.ok res) :
    lookupEnv res k = some ov := by
  have hmem : k ∈ keysOf cur := lookupEnv_isSome_mem_keys cur k hsome
  exact envRestore_aux hkw ho (keysOf cur) cur res hnd hmem hsome hres

/-- C3 witness: the amended statement at a concrete instance — snapshot
X=1, no supplied keys, environment X=2 at loop start — the loop succeeds
and resets X to 1. -/
theorem c3_env_restore_resets_outside_keys_witness :
    (keysOf [("X", "2")]).Nodup
      ∧ (lookupEnv [("X", "2")] "X").isSome
      ∧ lookupEnv ([] : Env) "X" = none
      ∧ lookupEnv [("X", "1")] "X" = some "1"
      ∧ envRestore [("X", "1")] [] [("X", "2")] = Except.ok [("X", "1")]
      ∧ lookupEnv [("X", "1")] "X" = some "1" := by
  refine ⟨by decide, by decide, rfl, rfl, rfl, ?_⟩
  exact c3_env_restore_resets_outside_keys [("X", "1")] [] [("X", "2")] [("X", "1")]
    "X" "1" (by decide) (by decide) rfl rfl rfl

/-- C4: the claim states that path(["/a", "/b"]) against PATH
/usr/bin:/bin yields /a,/b,/usr/bin,/bin when prepending and
/usr/bin,/bin,/a,/b when appending, applying the joined list as PATH for
the scope.  The code never initializes the local paths_str_list
(src/yotar.py line 74), so with either flag the call raises
UnboundLocalError before reaching the env application and yields nothing;
PATH is unchanged. -/
theorem c4_path_unbound_local_instead_of_yield :
    pathScope [("PATH", "/usr/bin:/bin")] [PathyV.str "/a", PathyV.str "/b"] true true
        = ([("PATH", "/usr/bin:/bin")], some (PyError.unboundLocal "paths_str_list"))
      ∧ pathScope [("PATH", "/usr/bin:/bin")] [PathyV.str "/a", PathyV.str "/b"] false true
        = ([("PATH", "/usr/bin:/bin")], some (PyError.unboundLocal "paths_str_list")) := by
  exact ⟨rfl, rfl⟩

/-- C5: the claim states that on exit from a quiet scope, even when the
block raises, descriptors 1 and 2 are pointed back at the saved duplicates
and the four auxiliary descriptors are closed.  The code has no
try/finally around the yield (src/yotar.py lines 90-121), so when a block
raises under the initial table 0,1,2, descriptors 1 and 2 still refer to
the null-device descriptions 3 and 4 and the auxiliary descriptors
3,4,5,6 all remain open, while the error propagates. -/
theorem c5_quiet_no_cleanup_on_failure :
    quietScope ⟨[(0, 0), (1, 1), (2, 2)], 3⟩
        (fun s => (s, some (PyError.blockRaised "boom")))
        = (⟨[(0, 0), (1, 3), (2, 4), (3, 3), (4, 4), (5, 1), (6, 2)], 5⟩,
           some (PyError.blockRaised "boom"))
      ∧ fdLookup [(0, 0), (1, 3), (2, 4), (3, 3), (4, 4), (5, 1), (6, 2)] 1 ≠ some 1
      ∧ fdLookup [(0, 0), (1, 3), (2, 4), (3, 3), (4, 4), (5, 1), (6, 2)] 2 ≠ some 2
      ∧ (fdLookup [(0, 0), (1, 3), (2, 4), (3, 3), (4, 4), (5, 1), (6, 2)] 3).isSome
      ∧ (fdLookup [(0, 0), (1, 3), (2, 4), (3, 3), (4, 4), (5, 1), (6, 2)] 4).isSome
      ∧ (fdLookup [(0, 0), (1, 3), (2, 4), (3, 3), (4, 4), (5, 1), (6, 2)] 5).isSome
      ∧ (fdLookup [(0, 0), (1, 3), (2, 4), (3, 3), (4, 4), (5, 1), (6, 2)] 6).isSome := by
  refine ⟨rfl, by decide, by decide, by decide, by decide, by decide, by decide⟩

/-- C6: with checked exit requested, a zero child exit returns the result
without error; a nonzero child exit raises CommandFailed carrying the
command text and the exit code; without checked exit the nonzero code is
simply returned in the result. -/
theorem c6_shell_checked_exit (user command childOut childErr : String)
    (code : Int) (capture : Bool) :
    (code = 0 → shell (some user) code childOut childErr command true capture
        = ([user ++ ": " ++ command, ""],
           Except.ok ⟨command, code,
             if capture then some childOut else none,
             if capture then some childErr else none⟩))
      ∧ (code ≠ 0 → shell (some user) code childOut childErr command true capture
          = ([user ++ ": " ++ command],
             Except.error (PyError.commandFailed command code)))
      ∧ shell (some user) code childOut childErr command false capture
          = ([user ++ ": " ++ command, ""],
             Except.ok ⟨command, code,
               if capture then some childOut else none,
               if capture then some childErr else none⟩) := by
  refine ⟨fun h => ?_, fun h => ?_, ?_⟩
  · simp [shell, h]
  · simp [shell, h]
  · simp [shell]

/-- C6 witness: the three cases at concrete inputs — exit 0 checked, exit
7 checked, exit 7 unchecked. -/
theorem c6_shell_checked_exit_witness :
    shell (some "alice") 0 "out" "err" "true" true false
        = (["alice: true", ""], Except.ok ⟨"true", 0, none, none⟩)
      ∧ shell (some "alice") 7 "out" "err" "false" true false
        = (["alice: false"], Except.error (PyError.commandFailed "false" 7))
      ∧ shell (some "alice") 7 "out" "err" "false" false false
        = (["alice: false", ""], Except.ok ⟨"false", 7, none, none⟩) := by
  refine ⟨?_, ?_, ?_⟩
  · exact (c6_shell_checked_exit "alice" "true" "out" "err" 0 false).1 rfl
  · exact (c6_shell_checked_exit "alice" "false" "out" "err" 7 false).2.1 (by decide)
  · exact (c6_shell_checked_exit "alice" "false" "out" "err" 7 false).2.2

/-- C7: when the invoking login identity cannot be determined, shell fails
with the environment-query error before printing anything, for every
command, flag combination and child behavior: no placeholder is
substituted in the attribution log line. -/
theorem c7_shell_no_login_raises (command childOut childErr : String)
    (code : Int) (check capture : Bool) :
    shell none code childOut childErr command check capture
      = ([], Except.error PyError.environmentQuery) := rfl

/-- C8: there is a pre-entry environment and a supplied key/value pair with
the pre-entry value equal to the supplied value such that, around a block
that changes nothing, the scope exit deletes the key instead of restoring
it: with FOO=bar before entry and env(FOO=bar), the live environment
inside the scope still holds FOO=bar, and after exit FOO is gone. -/
theorem c8_env_equal_value_key_deleted :
    envScope [("FOO", "bar")] [("FOO", "bar")] (fun e => e) = Except.ok []
      ∧ lookupEnv (applyKwargs [("FOO", "bar")] [("FOO", "bar")]) "FOO" = some "bar"
      ∧ lookupEnv ([] : Env) "FOO" = none := by
  exact ⟨rfl, rfl, rfl⟩

/-- C9: every call to path — whatever the entries, the prepend flag and
the expand_user flag, the empty entry list included — raises while
building the new path list, before the environment application on line 86
is reached, so the environment (in particular PATH) is exactly what it was
before the call. -/
theorem c9_path_always_raises_before_env
    (environ : Env) (paths : List PathyV) (prepend expandUser : Bool) :
    (pathScope environ paths prepend expandUser).1 = environ
      ∧ (pathScope environ paths prepend expandUser).2.isSome := by
  unfold pathScope
  cases h : pathLoop expandUser paths with
  | error e => simp
  | ok u => cases hp : lookupEnv environ "PATH" <;> simp

/-- C10: the name Pathy appears in the evaluated annotations of cd and
path but is bound nowhere — not by the module imports, not by any def of
the module, not by a builtin — so executing the module top level stops
with a NameError for Pathy (at the def of cd, the first definition whose
annotations mention it), before the module's functions become usable. -/
theorem c10_pathy_undefined_import_fails :
    evalModule moduleImports moduleDefs = Except.error (PyError.nameError "Pathy")
      ∧ ¬ "Pathy" ∈ moduleImports
      ∧ ¬ "Pathy" ∈ moduleDefs.map Prod.fst
      ∧ ¬ "Pathy" ∈ pyBuiltins := by
  exact ⟨rfl, by decide, by decide, by decide⟩
